import Mathlib

/-
  Verification of the parachute-simulation physics core.

  Shallow embedding of the authoritative source files:
    - src/parachutePhysics.js  (class ParachutePhysics: atmosphere model,
      force model, deployment state machine)
    - src/customPhysics.js     (class CustomPhysicsBody: integrator and
      collision handling; class CustomPhysicsWorld: body registry)
  JavaScript numbers are modelled as real numbers; THREE.Vector3 as a
  record of three reals; Date.now() as an explicit parameter `now`
  (milliseconds).  Logging fields and console output are omitted, as are
  the inert quaternion / angularVelocity / boundingBox / lastGroundTime
  fields, which influence none of the modelled fields.
-/

noncomputable section

/-- Three-component real vector, modelling THREE.Vector3. -/
structure V3 where
  x : ℝ
  y : ℝ
  z : ℝ

def V3.zero : V3 := ⟨0, 0, 0⟩

def V3.add (a b : V3) : V3 := ⟨a.x + b.x, a.y + b.y, a.z + b.z⟩

def V3.sub (a b : V3) : V3 := ⟨a.x - b.x, a.y - b.y, a.z - b.z⟩

/-- Scalar multiplication, THREE.Vector3.multiplyScalar. -/
def V3.smul (c : ℝ) (a : V3) : V3 := ⟨c * a.x, c * a.y, c * a.z⟩

/-- Euclidean norm, THREE.Vector3.length. -/
def V3.length (a : V3) : ℝ := Real.sqrt (a.x ^ 2 + a.y ^ 2 + a.z ^ 2)

/-- Squared norm, THREE.Vector3.lengthSq. -/
def V3.lengthSq (a : V3) : ℝ := a.x ^ 2 + a.y ^ 2 + a.z ^ 2

namespace ParachutePhysics

-- PHYSICS_CONSTANTS of src/parachutePhysics.js
def GRAVITY : ℝ := 9.81
def SEA_LEVEL_TEMP : ℝ := 15
def SEA_LEVEL_PRESSURE : ℝ := 101325
def TEMP_LAPSE_RATE : ℝ := 0.0065
def AIR_MOLAR_MASS : ℝ := 0.0289644
def GAS_CONSTANT : ℝ := 8.3144598
def MAX_ALTITUDE : ℝ := 10000
def MIN_TEMPERATURE : ℝ := -60
def MAX_TEMPERATURE : ℝ := 50
def DRAG_COEFF_VERTICAL_FREEFALL : ℝ := 0.7
def DRAG_COEFF_VERTICAL_PARACHUTE : ℝ := 1.75
def DRAG_COEFF_HORIZONTAL_FREEFALL : ℝ := 1.0
def DRAG_COEFF_HORIZONTAL_PARACHUTE : ℝ := 1.2
def PARACHUTIST_MASS : ℝ := 80
def PARACHUTIST_AREA : ℝ := 0.7
def PARACHUTE_AREA_ROUND : ℝ := 50
def PARACHUTE_AREA_RECT : ℝ := 25

end ParachutePhysics

/-- The ParachuteState enum of src/parachutePhysics.js. -/
inductive ParachuteState where
  | FREEFALL
  | OPENING
  | DEPLOYED
deriving DecidableEq

/-- Mutable instance fields of class ParachutePhysics (the ones that
influence or are produced by the modelled methods). -/
structure PState where
  mass : ℝ
  state : ParachuteState
  velocity : V3
  position : V3
  altitude : ℝ
  parachuteOpen : Bool
  parachuteArea : ℝ
  dragCoeffVertical : ℝ
  dragCoeffHorizontal : ℝ
  temperature : ℝ
  pressure : ℝ
  airDensity : ℝ
  windVelocity : V3
  windStrength : ℝ
  windDirection : ℝ
  parachuteDeployTime : ℝ
  openingDuration : ℝ
  terminalVelocity : ℝ

/-- State of the cannon body handed to ParachutePhysics.update. -/
structure CannonBody where
  position : V3
  velocity : V3

namespace ParachutePhysics

/-- Model of ParachutePhysics.calculateTemperature: lapse-rate temperature with the
altitude clamped to [0, MAX_ALTITUDE] and the result clamped to
[MIN_TEMPERATURE, MAX_TEMPERATURE]. -/
def calculateTemperature (altitude : ℝ) : ℝ :=
  let safeAltitude := max 0 (min altitude MAX_ALTITUDE)
  let temperature := SEA_LEVEL_TEMP - TEMP_LAPSE_RATE * safeAltitude
  max MIN_TEMPERATURE (min temperature MAX_TEMPERATURE)

/-- Model of ParachutePhysics.calculatePressureISA: the ISA power-law pressure
formula, with the altitude clamped below at 0 (Math.max(0, altitude));
Math.pow is modelled by Real.rpow. -/
def calculatePressureISA (altitude : ℝ) : ℝ :=
  let safeAltitude := max 0 altitude
  let T0 : ℝ := 288.15
  let L : ℝ := 0.0065
  let g : ℝ := 9.80665
  let M : ℝ := 0.0289644
  let R : ℝ := 8.3144598
  let exponent := (g * M) / (R * L)
  SEA_LEVEL_PRESSURE * (1 - (L * safeAltitude) / T0) ^ exponent

/-- Model of ParachutePhysics.calculateAirDensity: ideal-gas density. -/
def calculateAirDensity (pressure temperature : ℝ) : ℝ :=
  (pressure * AIR_MOLAR_MASS) / (GAS_CONSTANT * (temperature + 273.15))

/-- Model of ParachutePhysics.updateEnvironmentalConditions. -/
def updateEnvironmentalConditions (s : PState) (altitude : ℝ) : PState :=
  let temperature := calculateTemperature altitude
  let pressure := calculatePressureISA altitude
  { s with
      altitude := altitude
      temperature := temperature
      pressure := pressure
      airDensity := calculateAirDensity pressure temperature }

/-- Model of ParachutePhysics.calculateDrag (reads this.airDensity from the state). -/
def calculateDrag (s : PState) (velocity : V3) (area dragCoeff : ℝ) : V3 :=
  let velocityMagnitude := velocity.length
  if velocityMagnitude = 0 then V3.zero
  else
    let dragMagnitude :=
      0.5 * dragCoeff * area * s.airDensity * velocityMagnitude * velocityMagnitude
    let dragDirection := V3.smul (-1) (V3.smul (1 / velocityMagnitude) velocity)
    V3.smul dragMagnitude dragDirection

/-- Model of ParachutePhysics.calculateWind: mutates this.windVelocity (x and z
components) and returns the wind force; result is the updated state
paired with the returned vector. -/
def calculateWind (s : PState) : PState × V3 :=
  let windVelocity : V3 :=
    ⟨Real.cos s.windDirection * s.windStrength, s.windVelocity.y,
      Real.sin s.windDirection * s.windStrength⟩
  let s1 := { s with windVelocity := windVelocity }
  if s1.parachuteOpen = false ∨ s1.altitude ≤ 5 then (s1, V3.zero)
  else
    let relativeVelocity := windVelocity.sub s1.velocity
    let windArea := if s1.parachuteOpen = true then s1.parachuteArea else PARACHUTIST_AREA
    (s1, calculateDrag s1 relativeVelocity windArea s1.dragCoeffHorizontal)

/-- Model of ParachutePhysics.calculateTension, with Date.now() passed as `now`. -/
def calculateTension (s : PState) (now : ℝ) : V3 :=
  if s.parachuteOpen = false then V3.zero
  else if s.state = ParachuteState.OPENING then
    let openingProgress := (now - s.parachuteDeployTime) / (s.openingDuration * 1000)
    let tensionFactor := min openingProgress 1
    ⟨0, s.mass * GRAVITY * tensionFactor, 0⟩
  else ⟨0, s.mass * GRAVITY, 0⟩

/-- The object literal returned by ParachutePhysics.calculateTerminalVelocity. -/
structure TerminalVelocityAnalysis where
  value : ℝ
  area : ℝ
  dragCoeff : ℝ
  airDensity : ℝ
  mass : ℝ
  gravity : ℝ
  state : ParachuteState
  parachuteOpen : Bool

/-- Model of ParachutePhysics.calculateTerminalVelocity: area and drag coefficient
selected from the current deployment state; the JavaScript expression
(this.parachuteArea || PARACHUTE_AREA_ROUND) falls back to the constant
exactly when parachuteArea is 0. -/
def calculateTerminalVelocity (s : PState) : TerminalVelocityAnalysis :=
  let ac : ℝ × ℝ :=
    if s.state = ParachuteState.FREEFALL then
      (PARACHUTIST_AREA, DRAG_COEFF_VERTICAL_FREEFALL)
    else if s.state = ParachuteState.OPENING ∨ s.state = ParachuteState.DEPLOYED then
      ((if s.parachuteArea = 0 then PARACHUTE_AREA_ROUND else s.parachuteArea),
        DRAG_COEFF_VERTICAL_PARACHUTE)
    else
      (PARACHUTIST_AREA, DRAG_COEFF_VERTICAL_FREEFALL)
  let terminalVelocity :=
    Real.sqrt ((2 * s.mass * GRAVITY) / (s.airDensity * ac.1 * ac.2))
  ⟨terminalVelocity, ac.1, ac.2, s.airDensity, s.mass, GRAVITY, s.state, s.parachuteOpen⟩

/-- Model of ParachutePhysics.deployParachute, with Date.now() passed as `now`. -/
def deployParachute (s : PState) (now : ℝ) : PState :=
  if s.state ≠ ParachuteState.FREEFALL then s
  else if s.altitude ≤ 5 then s
  else
    { s with
        state := ParachuteState.OPENING
        parachuteOpen := true
        parachuteDeployTime := now
        parachuteArea := PARACHUTE_AREA_ROUND
        dragCoeffVertical := DRAG_COEFF_VERTICAL_PARACHUTE
        dragCoeffHorizontal := DRAG_COEFF_HORIZONTAL_PARACHUTE }

/-- First half of ParachutePhysics.update: refresh the environmental
conditions from the body altitude, complete the OPENING phase when the
opening progress reaches 1, and take the current velocity from the
cannon body. -/
def syncEnvAndState (s : PState) (now : ℝ) (body : CannonBody) : PState :=
  let s1 := updateEnvironmentalConditions s body.position.y
  let s2 :=
    if s1.state = ParachuteState.OPENING ∧
        (now - s1.parachuteDeployTime) / (s1.openingDuration * 1000) ≥ 1 then
      { s1 with state := ParachuteState.DEPLOYED }
    else s1
  { s2 with velocity := body.velocity }

/-- Model of ParachutePhysics.update, with Date.now() passed as `now`.  The second
component of the result is the total additional force passed to
cannonBody.applyForce during the step (the zero vector when the
airborne-and-open branch is not taken, in which case applyForce is not
called at all). -/
def update (s : PState) (deltaTime now : ℝ) (body : CannonBody) : PState × V3 :=
  let s3 := syncEnvAndState s now body
  let branch : PState × V3 :=
    if s3.altitude > 5 ∧ s3.parachuteOpen = true then
      let dragForce :=
        calculateDrag s3 s3.velocity
          (if s3.parachuteOpen = true then s3.parachuteArea else PARACHUTIST_AREA)
          s3.dragCoeffVertical
      let ws := calculateWind s3
      ((ws.1), (V3.zero.add dragForce).add ws.2)
    else (s3, V3.zero)
  let s5 := { branch.1 with terminalVelocity := (calculateTerminalVelocity branch.1).value }
  let s6 := { s5 with position := body.position }
  (s6, branch.2)

/-- Model of ParachutePhysics.setWind. -/
def setWind (s : PState) (strength direction : ℝ) : PState :=
  let ws1 := max 0 strength
  let ws2 := if ws1 < 0.5 then 0 else ws1
  { s with windStrength := ws2, windDirection := direction }

/-- Model of ParachutePhysics.reset. -/
def reset (s : PState) : PState :=
  let s1 :=
    { s with
        state := ParachuteState.FREEFALL
        parachuteOpen := false
        parachuteArea := 0
        dragCoeffVertical := DRAG_COEFF_VERTICAL_FREEFALL
        dragCoeffHorizontal := DRAG_COEFF_HORIZONTAL_FREEFALL
        velocity := V3.zero }
  { s1 with
      terminalVelocity := (calculateTerminalVelocity s1).value
      parachuteDeployTime := 0 }

end ParachutePhysics

namespace CustomPhysics

-- Module constants of src/customPhysics.js
def GRAVITY : ℝ := 9.81
def GROUND_LEVEL : ℝ := 1
def BOUNDARY_X : ℝ := 100
def BOUNDARY_Z : ℝ := 200
def AIR_RESISTANCE : ℝ := 0.02
def FRICTION : ℝ := 0.8
def RESTITUTION : ℝ := 0.1

/-- Field groundContactThreshold (constant 0.1 in the constructor). -/
def groundContactThreshold : ℝ := 0.1

end CustomPhysics

/-- Dynamical fields of class CustomPhysicsBody. -/
structure CBody where
  mass : ℝ
  position : V3
  velocity : V3
  acceleration : V3
  force : V3
  isActive : Bool
  onGround : Bool

namespace CustomPhysics

/-- Model of Math.sign. -/
def jsSign (x : ℝ) : ℝ := if x < 0 then -1 else if 0 < x then 1 else 0

/-- Acceleration computed at the top of CustomPhysicsBody.update:
force / mass, plus gravity on y, plus the quadratic air-resistance term
when the speed exceeds 0.1. -/
def integratedAcceleration (b : CBody) : V3 :=
  let a0 : V3 :=
    ⟨b.force.x * (1 / b.mass), b.force.y * (1 / b.mass) - GRAVITY, b.force.z * (1 / b.mass)⟩
  if b.velocity.length > 0.1 then
    let airResistanceForce :=
      V3.smul (-AIR_RESISTANCE * b.velocity.lengthSq)
        (V3.smul (1 / b.velocity.length) b.velocity)
    a0.add (V3.smul (1 / b.mass) airResistanceForce)
  else a0

/-- Velocity after the semi-implicit Euler step of CustomPhysicsBody.update. -/
def integratedVelocity (b : CBody) (dt : ℝ) : V3 :=
  b.velocity.add (V3.smul dt (integratedAcceleration b))

/-- Position after the position update of CustomPhysicsBody.update
(x = x0 + v t + a (0.5 t^2), with v already the updated velocity). -/
def integratedPosition (b : CBody) (dt : ℝ) : V3 :=
  (b.position.add (V3.smul dt (integratedVelocity b dt))).add
    (V3.smul (0.5 * dt * dt) (integratedAcceleration b))

/-- Model of CustomPhysicsBody.handleCollisions: ground clamp with restitution and
friction, then the X and Z boundary clamps, then the small-velocity
floor.  Takes the onGround flag as it stood before this update call. -/
def handleCollisions (p v : V3) (onGround : Bool) : V3 × V3 :=
  let pv1 : V3 × V3 :=
    if p.y < GROUND_LEVEL then
      let vy := if v.y < 0 then -v.y * RESTITUTION else v.y
      let vx := if onGround = true then v.x * FRICTION else v.x
      let vz := if onGround = true then v.z * FRICTION else v.z
      (⟨p.x, GROUND_LEVEL, p.z⟩, ⟨vx, vy, vz⟩)
    else (p, v)
  let pv2 : V3 × V3 :=
    if |pv1.1.x| > BOUNDARY_X then
      (⟨jsSign pv1.1.x * BOUNDARY_X, pv1.1.y, pv1.1.z⟩,
        ⟨-pv1.2.x * RESTITUTION, pv1.2.y, pv1.2.z⟩)
    else pv1
  let pv3 : V3 × V3 :=
    if |pv2.1.z| > BOUNDARY_Z then
      (⟨pv2.1.x, pv2.1.y, jsSign pv2.1.z * BOUNDARY_Z⟩,
        ⟨pv2.2.x, pv2.2.y, -pv2.2.z * RESTITUTION⟩)
    else pv2
  if pv3.2.length < 0.1 then (pv3.1, V3.zero) else pv3

/-- Model of CustomPhysicsBody.update: no-op for inactive bodies; otherwise
integrate, resolve collisions, refresh the ground-contact flag and reset
the force accumulator. -/
def update (b : CBody) (dt : ℝ) : CBody :=
  if b.isActive = false then b
  else
    let a := integratedAcceleration b
    let v1 := integratedVelocity b dt
    let p1 := integratedPosition b dt
    let pv := handleCollisions p1 v1 b.onGround
    let onGround1 : Bool := decide (pv.1.y - GROUND_LEVEL ≤ groundContactThreshold)
    { b with
        position := pv.1
        velocity := pv.2
        acceleration := a
        onGround := onGround1
        force := V3.zero }

end CustomPhysics

/-- Fields of class CustomPhysicsWorld (defaultContactMaterial omitted:
it is never read by the modelled operations). -/
structure CWorld where
  bodies : List CBody
  gravity : V3
  time : ℝ
  subSteps : ℕ

namespace CustomPhysics

/-- Object identity of JavaScript body references, for indexOf. -/
instance : DecidableEq CBody := Classical.decEq _

/-- Model of CustomPhysicsWorld.addBody: an unconditional Array.push. -/
def addBody (w : CWorld) (b : CBody) : CWorld :=
  { w with bodies := w.bodies ++ [b] }

/-- Model of CustomPhysicsWorld.removeBody: indexOf, then splice of one element
when found (JavaScript indexOf returns -1 exactly when the body is
absent; List.indexOf returns the length in that case). -/
def removeBody (w : CWorld) (b : CBody) : CWorld :=
  let index := w.bodies.indexOf b
  if index < w.bodies.length then { w with bodies := w.bodies.eraseIdx index } else w

/-- Model of CustomPhysicsWorld.step: advance time, then for each of subSteps
sub-steps update every body with dt / subSteps. -/
def step (w : CWorld) (dt : ℝ) : CWorld :=
  let subStepDelta := dt / (w.subSteps : ℝ)
  { w with
      time := w.time + dt
      bodies := Nat.iterate (fun bs => bs.map (fun b => update b subStepDelta)) w.subSteps w.bodies }

/-- Model of CustomPhysicsWorld.setGravity. -/
def setGravity (w : CWorld) (g : V3) : CWorld :=
  { w with gravity := g }

end CustomPhysics

/-
  Concrete states used as witnesses and counterexamples.
-/

/-- A concrete CustomPhysicsBody: default mass, at the origin, at rest,
active, not on the ground. -/
def b0 : CBody := ⟨80, V3.zero, V3.zero, V3.zero, V3.zero, true, false⟩

/-- A concrete CustomPhysicsWorld with an empty registry. -/
def w0 : CWorld := ⟨[], V3.zero, 0, 1⟩

/-- A concrete ParachutePhysics state: freefall at altitude 100 m. -/
def sF : PState :=
  { mass := 80
    state := ParachuteState.FREEFALL
    velocity := V3.zero
    position := V3.zero
    altitude := 100
    parachuteOpen := false
    parachuteArea := 0
    dragCoeffVertical := ParachutePhysics.DRAG_COEFF_VERTICAL_FREEFALL
    dragCoeffHorizontal := ParachutePhysics.DRAG_COEFF_HORIZONTAL_FREEFALL
    temperature := 15
    pressure := 101325
    airDensity := 1.225
    windVelocity := V3.zero
    windStrength := 0
    windDirection := 0
    parachuteDeployTime := 0
    openingDuration := 2
    terminalVelocity := 0 }

/-- A concrete state in the OPENING phase, deployed at time 1000 ms. -/
def sO : PState :=
  { sF with
      state := ParachuteState.OPENING
      parachuteOpen := true
      parachuteArea := ParachutePhysics.PARACHUTE_AREA_ROUND
      dragCoeffVertical := ParachutePhysics.DRAG_COEFF_VERTICAL_PARACHUTE
      dragCoeffHorizontal := ParachutePhysics.DRAG_COEFF_HORIZONTAL_PARACHUTE
      parachuteDeployTime := 1000 }

/-- A concrete state with the canopy fully DEPLOYED and no wind. -/
def sD : PState :=
  { sO with state := ParachuteState.DEPLOYED }

/-- A concrete cannon body at altitude 100 m, at rest. -/
def bodyA : CannonBody := ⟨⟨0, 100, 0⟩, V3.zero⟩

/-
  Theorems.
-/

/-- The first half of ParachutePhysics.update keeps the body altitude and
the parachuteOpen flag. -/
theorem syncEnvAndState_fields (s : PState) (now : ℝ) (body : CannonBody) :
    (ParachutePhysics.syncEnvAndState s now body).altitude = body.position.y ∧
    (ParachutePhysics.syncEnvAndState s now body).parachuteOpen = s.parachuteOpen := by
  simp only [ParachutePhysics.syncEnvAndState, ParachutePhysics.updateEnvironmentalConditions]
  split <;> simp

/-- Claim C10: for every strength s and direction d, setWind stores
windDirection = d and windStrength = max(0, s), except that when
max(0, s) < 0.5 the strength is set to exactly 0; consequently the
stored strength is never negative, and strictly positive requested
strengths below 0.5 are discarded. -/
theorem setWind_stores_clamped_strength (s : PState) (strength direction : ℝ) :
    (ParachutePhysics.setWind s strength direction).windDirection = direction ∧
    (ParachutePhysics.setWind s strength direction).windStrength =
      (if max 0 strength < 0.5 then 0 else max 0 strength) ∧
    0 ≤ (ParachutePhysics.setWind s strength direction).windStrength := by
  refine ⟨rfl, rfl, ?_⟩
  simp only [ParachutePhysics.setWind]
  split
  · exact le_refl 0
  · exact le_max_left 0 strength

/-- Claim C9: stepping two worlds that differ only in the gravity vector
set through setGravity yields identical body lists (hence identical
positions, velocities and accelerations for every body): the World-level
gravity vector never reaches CustomPhysicsBody.update, which hardcodes
its own gravity constant. -/
theorem step_ignores_world_gravity (w : CWorld) (g1 g2 : V3) (dt : ℝ) :
    (CustomPhysics.step (CustomPhysics.setGravity w g1) dt).bodies =
      (CustomPhysics.step (CustomPhysics.setGravity w g2) dt).bodies ∧
    (CustomPhysics.step (CustomPhysics.setGravity w g1) dt).time =
      (CustomPhysics.step (CustomPhysics.setGravity w g2) dt).time :=
  ⟨rfl, rfl⟩

/-- Claim C8 counterexample: addBody does insert a body that is already
present — pushing the same body twice leaves the registry [b0, b0],
which contains a duplicate. -/
theorem addBody_inserts_duplicate :
    (CustomPhysics.addBody (CustomPhysics.addBody w0 b0) b0).bodies = [b0, b0] ∧
    ¬ (CustomPhysics.addBody (CustomPhysics.addBody w0 b0) b0).bodies.Nodup := by
  refine ⟨rfl, ?_⟩
  simp [CustomPhysics.addBody, w0, List.nodup_cons]

/-- Claim C8 amended: removeBody called with a body not in the registry
is a no-op, while addBody appends unconditionally (a second insertion of
a present body creates a duplicate). -/
theorem removeBody_absent_noop (w : CWorld) (b : CBody) :
    (b ∉ w.bodies → CustomPhysics.removeBody w b = w) ∧
    (CustomPhysics.addBody w b).bodies = w.bodies ++ [b] := by
  refine ⟨fun hb => ?_, rfl⟩
  simp only [CustomPhysics.removeBody]
  rw [if_neg]
  rw [List.indexOf_lt_length]
  exact hb

/-- Witness for C8 amended: removing a body from the empty registry is a
no-op, and adding it appends it. -/
theorem removeBody_absent_noop_witness :
    CustomPhysics.removeBody w0 b0 = w0 ∧
    (CustomPhysics.addBody w0 b0).bodies = w0.bodies ++ [b0] :=
  ⟨(removeBody_absent_noop w0 b0).1 (by simp [w0]),
    (removeBody_absent_noop w0 b0).2⟩

/-- Claim C3: deployParachute moves FREEFALL to OPENING exactly when the
state is FREEFALL and the altitude exceeds 5 m (recording the timestamp,
setting the round-canopy area and switching to canopy drag
coefficients), and is a no-op in every other case; during update,
OPENING becomes DEPLOYED exactly when the opening progress reaches 1;
reset returns the state to FREEFALL. -/
theorem deployment_state_machine (s : PState) (now dt : ℝ) (body : CannonBody) :
    (s.state = ParachuteState.FREEFALL → s.altitude > 5 →
      ParachutePhysics.deployParachute s now =
        { s with
            state := ParachuteState.OPENING
            parachuteOpen := true
            parachuteDeployTime := now
            parachuteArea := ParachutePhysics.PARACHUTE_AREA_ROUND
            dragCoeffVertical := ParachutePhysics.DRAG_COEFF_VERTICAL_PARACHUTE
            dragCoeffHorizontal := ParachutePhysics.DRAG_COEFF_HORIZONTAL_PARACHUTE }) ∧
    (s.state ≠ ParachuteState.FREEFALL ∨ s.altitude ≤ 5 →
      ParachutePhysics.deployParachute s now = s) ∧
    ((ParachutePhysics.update s dt now body).1.state =
      if s.state = ParachuteState.OPENING ∧
          (now - s.parachuteDeployTime) / (s.openingDuration * 1000) ≥ 1
        then ParachuteState.DEPLOYED else s.state) ∧
    (ParachutePhysics.reset s).state = ParachuteState.FREEFALL := by
  refine ⟨fun h1 h2 => ?_, fun h => ?_, ?_, rfl⟩
  · simp only [ParachutePhysics.deployParachute]
    rw [if_neg (by simp [h1]), if_neg (not_le.mpr h2)]
  · simp only [ParachutePhysics.deployParachute]
    split_ifs with h1 h2
    · rfl
    · rfl
    · rcases h with h | h
      · exact absurd (not_not.mp h1) h
      · exact absurd h h2
  · simp only [ParachutePhysics.update, ParachutePhysics.syncEnvAndState,
      ParachutePhysics.updateEnvironmentalConditions, ParachutePhysics.calculateWind]
    split_ifs <;> simp_all

/-- Witness for C3: deploying from a concrete freefall state at altitude
100 m switches to OPENING with the canopy parameters, and reset returns
to FREEFALL. -/
theorem deployment_state_machine_witness :
    ParachutePhysics.deployParachute sF 1000 =
      { sF with
          state := ParachuteState.OPENING
          parachuteOpen := true
          parachuteDeployTime := 1000
          parachuteArea := ParachutePhysics.PARACHUTE_AREA_ROUND
          dragCoeffVertical := ParachutePhysics.DRAG_COEFF_VERTICAL_PARACHUTE
          dragCoeffHorizontal := ParachutePhysics.DRAG_COEFF_HORIZONTAL_PARACHUTE } ∧
    (ParachutePhysics.reset sF).state = ParachuteState.FREEFALL :=
  ⟨(deployment_state_machine sF 1000 0 bodyA).1 rfl (by norm_num [sF]),
    (deployment_state_machine sF 1000 0 bodyA).2.2.2⟩

/-- Claim C2 counterexample: at the very moment of deployment (now equal
to the deployment timestamp) the tension during OPENING is the zero
vector, not a positive partial fraction (such as 80 percent) of the body
weight. -/
theorem tension_zero_at_deployment :
    ParachutePhysics.calculateTension sO 1000 = ⟨0, 0, 0⟩ ∧
    (0 : ℝ) < 0.8 * (sO.mass * ParachutePhysics.GRAVITY) := by
  constructor
  · simp [ParachutePhysics.calculateTension, sO, sF]
  · norm_num [sO, sF, ParachutePhysics.GRAVITY]

/-- Claim C2 amended: tension is the zero vector while the canopy is
closed; during OPENING it is vertical and equals m*g times the opening
progress clamped above at 1 (so it ramps linearly from zero at the
moment of deployment up to full weight); once DEPLOYED it is the
constant upward force m*g. -/
theorem calculateTension_cases (s : PState) (now : ℝ) :
    (s.parachuteOpen = false → ParachutePhysics.calculateTension s now = V3.zero) ∧
    (s.parachuteOpen = true → s.state = ParachuteState.OPENING →
      ParachutePhysics.calculateTension s now =
        ⟨0, s.mass * ParachutePhysics.GRAVITY *
            min ((now - s.parachuteDeployTime) / (s.openingDuration * 1000)) 1, 0⟩) ∧
    (s.parachuteOpen = true → s.state = ParachuteState.OPENING →
      now = s.parachuteDeployTime →
      ParachutePhysics.calculateTension s now = ⟨0, 0, 0⟩) ∧
    (s.parachuteOpen = true → s.state = ParachuteState.DEPLOYED →
      ParachutePhysics.calculateTension s now =
        ⟨0, s.mass * ParachutePhysics.GRAVITY, 0⟩) := by
  refine ⟨fun h => ?_, fun h1 h2 => ?_, fun h1 h2 h3 => ?_, fun h1 h2 => ?_⟩
  · simp [ParachutePhysics.calculateTension, h]
  · simp [ParachutePhysics.calculateTension, h1, h2]
  · simp [ParachutePhysics.calculateTension, h1, h2, h3]
  · simp [ParachutePhysics.calculateTension, h1, h2]

/-- Witness for C2 amended: halfway through the opening of a concrete
state the tension is m*g times the clamped progress. -/
theorem calculateTension_cases_witness :
    ParachutePhysics.calculateTension sO 2000 =
      ⟨0, sO.mass * ParachutePhysics.GRAVITY *
          min ((2000 - sO.parachuteDeployTime) / (sO.openingDuration * 1000)) 1, 0⟩ :=
  (calculateTension_cases sO 2000).2.1 rfl rfl

/-- Claim C1 counterexample: in an update step of a DEPLOYED, open-canopy
state at altitude 100 m with zero velocity and no wind, the drag and
wind forces are both zero and the tension computed by calculateTension
is the nonzero vector (0, 784.8, 0), yet the force applied to the
physics body is the zero vector — so the applied force does not equal
drag + wind + tension, and calculateTension never contributes. -/
theorem update_never_applies_tension :
    (ParachutePhysics.update sD 1 5000 bodyA).2 = V3.zero ∧
    ParachutePhysics.calculateDrag (ParachutePhysics.syncEnvAndState sD 5000 bodyA)
      (ParachutePhysics.syncEnvAndState sD 5000 bodyA).velocity
      (ParachutePhysics.syncEnvAndState sD 5000 bodyA).parachuteArea
      (ParachutePhysics.syncEnvAndState sD 5000 bodyA).dragCoeffVertical = V3.zero ∧
    (ParachutePhysics.calculateWind (ParachutePhysics.syncEnvAndState sD 5000 bodyA)).2 =
      V3.zero ∧
    ParachutePhysics.calculateTension (ParachutePhysics.syncEnvAndState sD 5000 bodyA) 5000 =
      ⟨0, 784.8, 0⟩ ∧
    (⟨0, 784.8, 0⟩ : V3) ≠ V3.zero := by
  refine ⟨?_, ?_, ?_, ?_, ?_⟩
  · simp [ParachutePhysics.update, ParachutePhysics.syncEnvAndState,
      ParachutePhysics.updateEnvironmentalConditions, ParachutePhysics.calculateDrag,
      ParachutePhysics.calculateWind, sD, sO, sF, bodyA, V3.length, V3.zero, V3.sub, V3.add,
      Real.sqrt_zero]
  · simp [ParachutePhysics.syncEnvAndState, ParachutePhysics.updateEnvironmentalConditions,
      ParachutePhysics.calculateDrag, sD, sO, sF, bodyA, V3.length, V3.zero, Real.sqrt_zero]
  · simp [ParachutePhysics.syncEnvAndState, ParachutePhysics.updateEnvironmentalConditions,
      ParachutePhysics.calculateWind, ParachutePhysics.calculateDrag, sD, sO, sF, bodyA,
      V3.length, V3.zero, V3.sub, Real.sqrt_zero]
  · simp [ParachutePhysics.syncEnvAndState, ParachutePhysics.updateEnvironmentalConditions,
      ParachutePhysics.calculateTension, sD, sO, sF, bodyA]
    norm_num [ParachutePhysics.GRAVITY]
  · simp [V3.zero]
    norm_num

/-- Claim C1 amended: on every update step in which the body is airborne
(altitude above 5 m) and the canopy is open, the additional force
applied to the physics body equals the vector sum of the drag force and
the wind force only; gravity is applied separately by the integrator and
the canopy tension of calculateTension is never applied. -/
theorem update_applied_force (s : PState) (dt now : ℝ) (body : CannonBody)
    (hAlt : body.position.y > 5) (hOpen : s.parachuteOpen = true) :
    (ParachutePhysics.update s dt now body).2 =
      (V3.zero.add
        (ParachutePhysics.calculateDrag (ParachutePhysics.syncEnvAndState s now body)
          (ParachutePhysics.syncEnvAndState s now body).velocity
          (if (ParachutePhysics.syncEnvAndState s now body).parachuteOpen = true
            then (ParachutePhysics.syncEnvAndState s now body).parachuteArea
            else ParachutePhysics.PARACHUTIST_AREA)
          (ParachutePhysics.syncEnvAndState s now body).dragCoeffVertical)).add
        (ParachutePhysics.calculateWind (ParachutePhysics.syncEnvAndState s now body)).2 := by
  have h := syncEnvAndState_fields s now body
  simp only [ParachutePhysics.update]
  rw [if_pos ⟨by rw [h.1]; exact hAlt, by rw [h.2]; exact hOpen⟩]

/-- Witness for C1 amended: at a concrete DEPLOYED state at altitude
100 m the applied force is exactly drag plus wind. -/
theorem update_applied_force_witness :
    (ParachutePhysics.update sD 1 5000 bodyA).2 =
      (V3.zero.add
        (ParachutePhysics.calculateDrag (ParachutePhysics.syncEnvAndState sD 5000 bodyA)
          (ParachutePhysics.syncEnvAndState sD 5000 bodyA).velocity
          (if (ParachutePhysics.syncEnvAndState sD 5000 bodyA).parachuteOpen = true
            then (ParachutePhysics.syncEnvAndState sD 5000 bodyA).parachuteArea
            else ParachutePhysics.PARACHUTIST_AREA)
          (ParachutePhysics.syncEnvAndState sD 5000 bodyA).dragCoeffVertical)).add
        (ParachutePhysics.calculateWind (ParachutePhysics.syncEnvAndState sD 5000 bodyA)).2 :=
  update_applied_force sD 1 5000 bodyA (by norm_num [bodyA]) rfl

/-- Claim C4 counterexample: the pressure computation does not clamp the
altitude to [0, MAX_ALTITUDE] — at 20000 m (above MAX_ALTITUDE =
10000 m) it returns a strictly smaller value than at 10000 m, whereas an
upper clamp would make the two equal. -/
theorem pressure_not_clamped_above :
    ParachutePhysics.calculatePressureISA 20000 < ParachutePhysics.calculatePressureISA 10000 := by
  simp only [ParachutePhysics.calculatePressureISA, ParachutePhysics.SEA_LEVEL_PRESSURE]
  rw [max_eq_right (by norm_num : (0:ℝ) ≤ 20000), max_eq_right (by norm_num : (0:ℝ) ≤ 10000)]
  refine mul_lt_mul_of_pos_left ?_ (by norm_num)
  exact Real.rpow_lt_rpow (by norm_num) (by norm_num) (by positivity)

/-- Claim C4 amended: the pressure computation clamps the altitude below
at 0 only (no upper clamp at MAX_ALTITUDE); for every altitude whose
clamped value does not exceed 44330 m — in particular throughout
[0, MAX_ALTITUDE] — it returns a non-negative (real, hence finite)
value, and for non-positive altitudes it agrees with the sea-level
value. -/
theorem pressureISA_nonneg_low_altitude :
    (∀ h : ℝ, max 0 h ≤ 44330 → 0 ≤ ParachutePhysics.calculatePressureISA h) ∧
    (∀ h : ℝ, h ≤ 0 →
      ParachutePhysics.calculatePressureISA h = ParachutePhysics.calculatePressureISA 0) := by
  constructor
  · intro h hh
    simp only [ParachutePhysics.calculatePressureISA, ParachutePhysics.SEA_LEVEL_PRESSURE]
    refine mul_nonneg (by norm_num) (Real.rpow_nonneg ?_ _)
    have key : (0.0065 : ℝ) * (max 0 h) / 288.15 ≤ 0.0065 * 44330 / 288.15 := by
      refine (div_le_div_iff_of_pos_right (by norm_num : (0:ℝ) < 288.15)).mpr ?_
      exact mul_le_mul_of_nonneg_left hh (by norm_num)
    have hb : (0.0065 : ℝ) * 44330 / 288.15 ≤ 1 := by norm_num
    linarith
  · intro h hh
    simp only [ParachutePhysics.calculatePressureISA]
    rw [max_eq_left hh, max_self]

/-- Witness for C4 amended: the pressure at 10000 m is non-negative and
the pressure at -5 m equals the sea-level pressure. -/
theorem pressureISA_nonneg_witness :
    0 ≤ ParachutePhysics.calculatePressureISA 10000 ∧
    ParachutePhysics.calculatePressureISA (-5) = ParachutePhysics.calculatePressureISA 0 :=
  ⟨pressureISA_nonneg_low_altitude.1 10000
      (by rw [max_eq_right (by norm_num : (0:ℝ) ≤ 10000)]; norm_num),
    pressureISA_nonneg_low_altitude.2 (-5) (by norm_num)⟩

/-- Claim C7 counterexample: with mass 80 kg, area 0.7 m^2, drag
coefficient 0.7 (the FREEFALL parameters) and air density 1.225 kg/m^3,
the terminal velocity computed by calculateTerminalVelocity differs from
53.8 m/s by more than 2 m/s, so it is not approximately 53.8 m/s. -/
theorem terminal_velocity_not_53_8 :
    2 < |(ParachutePhysics.calculateTerminalVelocity sF).value - 53.8| := by
  have hval : (ParachutePhysics.calculateTerminalVelocity sF).value =
      Real.sqrt ((2 * 80 * 9.81) / (1.225 * 0.7 * 0.7)) := by
    simp [ParachutePhysics.calculateTerminalVelocity, sF, ParachutePhysics.GRAVITY,
      ParachutePhysics.PARACHUTIST_AREA, ParachutePhysics.DRAG_COEFF_VERTICAL_FREEFALL]
  have hlt : (ParachutePhysics.calculateTerminalVelocity sF).value < 51.2 := by
    rw [hval, Real.sqrt_lt' (by norm_num)]
    norm_num
  rw [abs_of_neg (by linarith)]
  linarith

/-- Claim C7 amended: with mass 80 kg, area 0.7 m^2, drag coefficient
0.7 and air density 1.225 kg/m^3, the terminal velocity computed by
calculateTerminalVelocity is approximately 51.14 m/s (strictly between
51.1 and 51.2). -/
theorem terminal_velocity_approx_51 :
    51.1 < (ParachutePhysics.calculateTerminalVelocity sF).value ∧
    (ParachutePhysics.calculateTerminalVelocity sF).value < 51.2 := by
  have hval : (ParachutePhysics.calculateTerminalVelocity sF).value =
      Real.sqrt ((2 * 80 * 9.81) / (1.225 * 0.7 * 0.7)) := by
    simp [ParachutePhysics.calculateTerminalVelocity, sF, ParachutePhysics.GRAVITY,
      ParachutePhysics.PARACHUTIST_AREA, ParachutePhysics.DRAG_COEFF_VERTICAL_FREEFALL]
  constructor
  · rw [hval, Real.lt_sqrt (by norm_num)]
    norm_num
  · rw [hval, Real.sqrt_lt' (by norm_num)]
    norm_num

/-- The ISA pressure exponent g*M / (R*L) of calculatePressureISA. -/
def kappa : ℝ := 9.80665 * 0.0289644 / (8.3144598 * 0.0065)

theorem one_le_kappa : (1:ℝ) ≤ kappa := by
  rw [kappa, le_div_iff₀ (by norm_num)]
  norm_num

/-- Within [0, MAX_ALTITUDE] neither temperature clamp is active. -/
theorem calcTemp_eq (h : ℝ) (h0 : 0 ≤ h) (h1 : h ≤ 10000) :
    ParachutePhysics.calculateTemperature h = 15 - 0.0065 * h := by
  simp only [ParachutePhysics.calculateTemperature, ParachutePhysics.MAX_ALTITUDE,
    ParachutePhysics.SEA_LEVEL_TEMP, ParachutePhysics.TEMP_LAPSE_RATE,
    ParachutePhysics.MIN_TEMPERATURE, ParachutePhysics.MAX_TEMPERATURE]
  rw [min_eq_left h1, max_eq_right h0, min_eq_left (by linarith), max_eq_right (by linarith)]

/-- For non-negative altitudes the lower clamp of calculatePressureISA is
inactive. -/
theorem calcPress_eq (h : ℝ) (h0 : 0 ≤ h) :
    ParachutePhysics.calculatePressureISA h =
      101325 * (1 - 0.0065 * h / 288.15) ^ kappa := by
  simp only [ParachutePhysics.calculatePressureISA, ParachutePhysics.SEA_LEVEL_PRESSURE, kappa]
  rw [max_eq_right h0]

/-- On [0, MAX_ALTITUDE] the pipeline temperature, then pressure, then
ideal-gas density collapses to a constant multiple of
(1 - L*h/T0)^(kappa - 1). -/
theorem density_formula (h : ℝ) (h0 : 0 ≤ h) (h1 : h ≤ 10000) :
    ParachutePhysics.calculateAirDensity (ParachutePhysics.calculatePressureISA h)
      (ParachutePhysics.calculateTemperature h) =
      101325 * 0.0289644 / (8.3144598 * 288.15) *
        (1 - 0.0065 * h / 288.15) ^ (kappa - 1) := by
  rw [calcTemp_eq h h0 h1, calcPress_eq h h0]
  simp only [ParachutePhysics.calculateAirDensity, ParachutePhysics.AIR_MOLAR_MASS,
    ParachutePhysics.GAS_CONSTANT]
  have hfrac : (0.0065 : ℝ) * h / 288.15 ≤ 0.0065 * 10000 / 288.15 := by
    refine (div_le_div_iff_of_pos_right (by norm_num : (0:ℝ) < 288.15)).mpr ?_
    nlinarith
  have hupos : (0:ℝ) < 1 - 0.0065 * h / 288.15 := by
    have : (0.0065 : ℝ) * 10000 / 288.15 < 1 := by norm_num
    linarith
  have hden : 15 - 0.0065 * h + 273.15 = 288.15 * (1 - 0.0065 * h / 288.15) := by
    field_simp
    ring
  rw [hden]
  set u := 1 - 0.0065 * h / 288.15 with hu
  rw [Real.rpow_sub_one (ne_of_gt hupos)]
  field_simp
  ring

/-- Claim C5: air density produced by the atmosphere update (temperature,
then ISA pressure, then ideal-gas density) is monotonically
non-increasing in altitude on [0, MAX_ALTITUDE]. -/
theorem density_antitone (s : PState) (h1 h2 : ℝ)
    (h1nn : 0 ≤ h1) (hlt : h1 < h2) (h2le : h2 ≤ 10000) :
    (ParachutePhysics.updateEnvironmentalConditions s h2).airDensity ≤
      (ParachutePhysics.updateEnvironmentalConditions s h1).airDensity := by
  have hd : ∀ h : ℝ, (ParachutePhysics.updateEnvironmentalConditions s h).airDensity =
      ParachutePhysics.calculateAirDensity (ParachutePhysics.calculatePressureISA h)
        (ParachutePhysics.calculateTemperature h) := fun h => rfl
  rw [hd, hd, density_formula h1 h1nn (by linarith), density_formula h2 (by linarith) h2le]
  refine mul_le_mul_of_nonneg_left ?_ (by norm_num)
  have hfrac2 : (0.0065 : ℝ) * h2 / 288.15 ≤ 0.0065 * 10000 / 288.15 := by
    refine (div_le_div_iff_of_pos_right (by norm_num : (0:ℝ) < 288.15)).mpr ?_
    nlinarith
  have hu2 : (0:ℝ) ≤ 1 - 0.0065 * h2 / 288.15 := by
    have : (0.0065 : ℝ) * 10000 / 288.15 < 1 := by norm_num
    linarith
  have hmono : (0.0065 : ℝ) * h1 / 288.15 ≤ 0.0065 * h2 / 288.15 := by
    refine (div_le_div_iff_of_pos_right (by norm_num : (0:ℝ) < 288.15)).mpr ?_
    nlinarith
  exact Real.rpow_le_rpow hu2 (by linarith) (by linarith [one_le_kappa])

/-- Witness for C5: the density computed at 1000 m does not exceed the
density computed at 0 m. -/
theorem density_antitone_witness :
    (ParachutePhysics.updateEnvironmentalConditions sF 1000).airDensity ≤
      (ParachutePhysics.updateEnvironmentalConditions sF 0).airDensity :=
  density_antitone sF 0 1000 (by norm_num) (by norm_num) (by norm_num)

/-- Length of a vector along the y axis. -/
theorem length_vertical (a : ℝ) : V3.length ⟨0, a, 0⟩ = |a| := by
  show Real.sqrt ((0:ℝ) ^ 2 + a ^ 2 + 0 ^ 2) = |a|
  rw [show (0:ℝ) ^ 2 + a ^ 2 + 0 ^ 2 = a ^ 2 by ring, Real.sqrt_sq_eq_abs]

/-- If the integrated position is below ground, handleCollisions clamps
the y coordinate to the ground level and makes the vertical velocity
non-negative. -/
theorem handleCollisions_ground (p v : V3) (og : Bool)
    (hp : p.y < CustomPhysics.GROUND_LEVEL) :
    (CustomPhysics.handleCollisions p v og).1.y = CustomPhysics.GROUND_LEVEL ∧
    0 ≤ (CustomPhysics.handleCollisions p v og).2.y := by
  simp only [CustomPhysics.handleCollisions]
  rw [if_pos hp]
  constructor
  · split_ifs <;> simp [V3.zero]
  · split_ifs <;>
      simp_all [V3.zero, CustomPhysics.RESTITUTION] <;>
      nlinarith

/-- A body that starts below ground with a large downward velocity: in
one step the quadratic air-resistance term reverses the integrated
motion so the body ends far above the ground with its (still negative)
vertical velocity untouched by any collision response. -/
def b6 : CBody := ⟨80, ⟨0, 0.5, 0⟩, ⟨0, -4000, 0⟩, V3.zero, V3.zero, true, false⟩

/-- Claim C6 counterexample: b6 has position.y = 0.5 below groundLevel
and downward velocity -4000 m/s, yet after one update call with dt = 1 s
its position.y is 1985.785 m (not the ground level) and its vertical
velocity is -9.81 m/s (still negative): integration precedes collision
resolution, and the body overshoots the ground clamp entirely. -/
theorem ground_collision_overshoot :
    b6.position.y < CustomPhysics.GROUND_LEVEL ∧
    b6.velocity.y < 0 ∧
    (CustomPhysics.update b6 1).position.y ≠ CustomPhysics.GROUND_LEVEL ∧
    (CustomPhysics.update b6 1).velocity.y < 0 := by
  have hlen : V3.length ⟨(0:ℝ), -4000, 0⟩ = 4000 := by
    rw [length_vertical, abs_of_neg (by norm_num : (-4000:ℝ) < 0)]
    norm_num
  have hacc : CustomPhysics.integratedAcceleration b6 = ⟨0, 3990.19, 0⟩ := by
    norm_num [CustomPhysics.integratedAcceleration, b6, hlen, V3.add, V3.smul, V3.lengthSq,
      V3.zero, CustomPhysics.AIR_RESISTANCE, CustomPhysics.GRAVITY]
  have hv1 : CustomPhysics.integratedVelocity b6 1 = ⟨0, -9.81, 0⟩ := by
    simp only [CustomPhysics.integratedVelocity, hacc]
    norm_num [b6, V3.add, V3.smul]
  have hp1 : CustomPhysics.integratedPosition b6 1 = ⟨0, 1985.785, 0⟩ := by
    simp only [CustomPhysics.integratedPosition, hacc, hv1]
    norm_num [b6, V3.add, V3.smul]
  have hlen2 : V3.length ⟨(0:ℝ), -(981/100), 0⟩ = 981/100 := by
    rw [length_vertical, abs_of_neg (by norm_num : (-(981/100):ℝ) < 0)]
    norm_num
  have hcol : CustomPhysics.handleCollisions ⟨0, 1985.785, 0⟩ ⟨0, -9.81, 0⟩ false =
      (⟨0, 1985.785, 0⟩, ⟨0, -9.81, 0⟩) := by
    norm_num [CustomPhysics.handleCollisions, CustomPhysics.GROUND_LEVEL,
      CustomPhysics.BOUNDARY_X, CustomPhysics.BOUNDARY_Z, hlen2]
  refine ⟨by norm_num [b6, CustomPhysics.GROUND_LEVEL], by norm_num [b6], ?_, ?_⟩
  · simp only [CustomPhysics.update]
    rw [if_neg (by simp [b6]), hp1, hv1, show b6.onGround = false from rfl, hcol]
    norm_num [CustomPhysics.GROUND_LEVEL]
  · simp only [CustomPhysics.update]
    rw [if_neg (by simp [b6]), hp1, hv1, show b6.onGround = false from rfl, hcol]
    norm_num

/-- Claim C6 amended: for every active body, whenever the semi-implicit
Euler integration step itself leaves position.y below groundLevel (which
is always the case for a body below ground with downward velocity once
dt is small enough), one update call clamps position.y to exactly
groundLevel and leaves a non-negative vertical velocity. -/
theorem ground_clamp_after_update (b : CBody) (dt : ℝ)
    (hAct : b.isActive = true)
    (hBelow : (CustomPhysics.integratedPosition b dt).y < CustomPhysics.GROUND_LEVEL) :
    (CustomPhysics.update b dt).position.y = CustomPhysics.GROUND_LEVEL ∧
    0 ≤ (CustomPhysics.update b dt).velocity.y := by
  simp only [CustomPhysics.update, hAct]
  exact handleCollisions_ground _ _ _ hBelow

/-- A concrete slow body just below ground level, falling. -/
def bW : CBody := ⟨80, ⟨0, 0.5, 0⟩, ⟨0, -1, 0⟩, V3.zero, V3.zero, true, false⟩

/-- Witness for C6 amended: the slow body bW with dt = 0 is clamped to
the ground with non-negative vertical velocity. -/
theorem ground_clamp_after_update_witness :
    (CustomPhysics.update bW 0).position.y = CustomPhysics.GROUND_LEVEL ∧
    0 ≤ (CustomPhysics.update bW 0).velocity.y :=
  ground_clamp_after_update bW 0 rfl
    (by norm_num [CustomPhysics.integratedPosition, CustomPhysics.integratedVelocity,
      V3.add, V3.smul, bW, CustomPhysics.GROUND_LEVEL])

end
